import Mathlib

/-!
# Verification of the pytari2600 core against its specification

Shallow embedding of `src/pytari2600/atari2600.py` and
`src/pytari2600/debugger.py`.  Components that live in modules not present
under `src/` (the `cartridge`, `clocks`, `memory`, `riot`, `inputs` and CPU
modules) are modelled from the specification where a claim needs them; each
such definition carries a doc comment starting `Modelled from the spec:`.
-/

/-! ## Cartridge model

`Atari.insert_cartridge` (atari2600.py lines 25-48) dispatches on the
cartridge-type tag and constructs one of five cartridge classes.  The classes
themselves live in `pytari2600/memory/cartridge.py`, which is not under
`src/`; their constructors and hotspot behaviour are modelled from the spec
(sections 3 "Cartridge" and 4.3).
-/

/-- The cartridge variants constructed by `insert_cartridge`:
`SingleBankCartridge`, `GenericCartridge` (bank count, bank size, hotspot
base offset, RAM size), `FECartridge` (bank count, bank size), `PBCartridge`
and `MNetworkCartridge`. -/
inductive Cartridge where
  | singleBank (bankSize : Nat)
  | generic (banks bankSize hotspotBase ramSize : Nat)
  | feCart (banks bankSize : Nat)
  | pbCart
  | mnetCart
deriving DecidableEq, Repr

/-- Modelled from the spec: `GenericCartridge(file, max_banks, bank_size,
hot_swap, ram_size)` is not under `src/`.  The spec's variant table (§3)
fixes each variant's bank count as ROM size divided by the 4 KB bank size
(e.g. `default`/`f8`: 8 KB = 2 @ 4 KB), while the caller passes a maximum
bank count, so the installed bank count is the ROM-derived count capped at
the constructor's maximum. -/
def GenericCartridge (romSize maxBanks bankSize hotSwap ramSize : Nat) : Cartridge :=
  .generic (min maxBanks (romSize / bankSize)) bankSize hotSwap ramSize

/-- Modelled from the spec: `FECartridge(file, banks, bank_size)` is not
under `src/`; bank count derived from ROM size capped at the constructor
argument, as for `GenericCartridge`. -/
def FECartridge (romSize maxBanks bankSize : Nat) : Cartridge :=
  .feCart (min maxBanks (romSize / bankSize)) bankSize

/-- Modelled from the spec: `SingleBankCartridge(file, bank_size)`, one bank,
no switching (§3: `single_bank` | 1 bank | no hotspots). -/
def SingleBankCartridge (bankSize : Nat) : Cartridge :=
  .singleBank bankSize

/-- `Atari.insert_cartridge` (atari2600.py lines 25-48): dispatch on the
cartridge-type tag.  The ROM file is represented by its size in bytes.
Every branch constructs a cartridge; the final `else` (commented
"Same as 'default'" in the source) catches every tag not explicitly
dispatched. -/
def insert_cartridge (romSize : Nat) (cart_type : String) : Cartridge :=
  if cart_type = "pb" then Cartridge.pbCart
  else if cart_type = "mnet" then Cartridge.mnetCart
  else if cart_type = "fe" then GenericCartridge romSize 8 0x1000 0xFFB 0x080
  else if cart_type = "e" then FECartridge romSize 2 0x1000
  else if cart_type = "cbs" then GenericCartridge romSize 3 0x1000 0xFFA 0x100
  else if cart_type = "super" then GenericCartridge romSize 4 0x1000 0xFF9 0x080
  else if cart_type = "f4" then GenericCartridge romSize 8 0x1000 0xFFB 0x000
  else if cart_type = "single_bank" then SingleBankCartridge 0x1000
  else if cart_type = "default" then GenericCartridge romSize 8 0x1000 0xFF9 0x0
  else GenericCartridge romSize 4 0x1000 0xFF9 0x0

/-- Number of ROM banks of an installed cartridge (spec §3 variant table;
`pb`: 16 KB in 4 × 1 KB segments, `mnet`: 8 × 2 KB). -/
def Cartridge.bankCount : Cartridge → Nat
  | .singleBank _ => 1
  | .generic banks _ _ _ => banks
  | .feCart banks _ => banks
  | .pbCart => 4
  | .mnetCart => 8

/-- Bank-switch side effect of one bus access: given the 13-bit CPU address
and the most recent data-bus value, the bank the cartridge switches to, if
any.

* `generic` (modelled from the spec §4.3): reads in the cartridge window
  whose 12-bit offset lies in the `banks` consecutive hotspot addresses
  ending at `hotspotBase` select the corresponding bank — address-only.
* `feCart` (modelled from the spec §3/§4.3: "switched by data-bus pattern on
  access to `$01FE/$01FF`", "samples the most recent data-bus value"): an
  access to `$01FE`/`$01FF` selects the bank from bit 5 of the sampled
  data-bus byte.
* `singleBank` never switches; `pb`/`mnet` hotspot maps are not needed by
  any claim and the spec sentence "Hotspot decoding is address-only except
  for `fe`" is all that is modelled (no data-bus dependence). -/
def Cartridge.bankSwitch : Cartridge → Nat → Nat → Option Nat
  | .singleBank _, _, _ => none
  | .generic banks _ hotspotBase _, addr, _ =>
    if 0x1000 ≤ addr ∧ hotspotBase + 1 ≤ addr % 0x1000 + banks ∧ addr % 0x1000 ≤ hotspotBase then
      some (banks - 1 - (hotspotBase - addr % 0x1000))
    else none
  | .feCart banks _, addr, bus =>
    if addr = 0x1FE ∨ addr = 0x1FF then some ((bus / 32) % 2 % banks) else none
  | .pbCart, _, _ => none
  | .mnetCart, _, _ => none

/-- A cartridge's hotspot decoding is address-only when the bank-switch side
effect never depends on the sampled data-bus value. -/
def Cartridge.addressOnly (c : Cartridge) : Prop :=
  ∀ addr bus bus', c.bankSwitch addr bus = c.bankSwitch addr bus'

/-! ## Main loop (`Atari.power_on`, atari2600.py lines 128-147)

In the normal (non-debug, non-replay) branch the source selects one of two
`while` loops on `stop_clock`: with `stop_clock == 0` it loops
`while 0 == quit_func()`, otherwise it loops
`while clk.system_clock < stop_clock` — the quit predicate is consulted only
in the first loop.  The guard is embedded as a function of `stop_clock`, the
current `system_clock` and the current value of `inputs.get_quit()`. -/

/-- Continuation guard of the main loop in `Atari.power_on` (lines 129-145):
`true` means the loop body runs again. -/
def power_on_guard (stop_clock system_clock quit : Nat) : Bool :=
  if stop_clock == 0 then quit == 0 else decide (system_clock < stop_clock)

/-- The exit condition as the spec words it ("the main loop exits when the
input collaborator's quit predicate becomes true or an external clock cap is
reached"): quit is true, or a nonzero clock cap has been reached. -/
def spec_exit_condition (stop_clock system_clock quit : Nat) : Bool :=
  (quit != 0) || (stop_clock != 0 && stop_clock ≤ system_clock)

/-! ## Save states (`Atari.get_save_state` / `Atari.set_save_state`,
atari2600.py lines 51-79)

The six component states (clock, memory, CPU core, inputs, TIA/stella, RIOT)
are opaque to the dispatcher; each is represented by a `Nat`.  The Python
`dict` is an association list keyed by the literal strings of the source. -/

/-- The per-component state owned by the `Atari` object: `clocks`, `memory`,
`core`, `inputs`, `stella`, `riot` (atari2600.py lines 12-18). -/
structure AtariState where
  clocks : Nat
  memory : Nat
  core : Nat
  inputs : Nat
  stella : Nat
  riot : Nat
deriving DecidableEq, Repr

/-- A save-state record: the Python `dict` built by `get_save_state`,
restored by `set_save_state`. -/
def SaveState : Type := List (String × Nat)

/-- `Atari.get_save_state` (lines 51-65): builds the state `dict` with the
six keys `clocks`, `memory`, `core`, `inputs`, `stella`, `riot` in source
order.  The component-level `get_save_state` methods are not under `src/`
and (modelled from the spec: save-state is "a pure-data snapshot", §5) each
returns its component's state unchanged. -/
def get_save_state (s : AtariState) : SaveState :=
  [("clocks", s.clocks), ("memory", s.memory), ("core", s.core),
   ("inputs", s.inputs), ("stella", s.stella), ("riot", s.riot)]

/-- `Atari.set_save_state` (lines 67-79): looks up the six keys in source
order and restores each component in place.  The component-level
`set_save_state` methods are not under `src/` and (modelled from the spec,
§5/§7) installing a well-formed component snapshot replaces the component
state, while an inconsistent field — modelled as a missing key — raises
`CorruptState`.  A Python exception aborts the remaining assignments but
does not undo the ones already made, so the `error` payload is the
partially-restored state at the failure point. -/
def set_save_state (s : AtariState) (st : SaveState) : Except AtariState AtariState :=
  match List.lookup "clocks" st with
  | none => .error s
  | some v =>
    let s := { s with clocks := v }
    match List.lookup "memory" st with
    | none => .error s
    | some v =>
      let s := { s with memory := v }
      match List.lookup "core" st with
      | none => .error s
      | some v =>
        let s := { s with core := v }
        match List.lookup "inputs" st with
        | none => .error s
        | some v =>
          let s := { s with inputs := v }
          match List.lookup "stella" st with
          | none => .error s
          | some v =>
            let s := { s with stella := v }
            match List.lookup "riot" st with
            | none => .error s
            | some v => .ok { s with riot := v }

/-! ## Clock and scheduler (claim C8)

`clocks.py` and the CPU core are not under `src/`; the clock discipline is
modelled from the spec. -/

/-- Modelled from the spec: the scheduler "advances the Clock by
`cycles * 3`" after each CPU instruction (§4.7 step 3); the clock is a
single counter of master color clocks starting at power-on (§3 "Clock"). -/
def scheduler_advance (system_clock cycles : Nat) : Nat :=
  system_clock + cycles * 3

/-- The master clock after executing a program whose successive instructions
cost the given numbers of CPU cycles, starting from power-on (clock 0). -/
def run_clock (costs : List Nat) : Nat :=
  costs.foldl scheduler_advance 0

/-! ## Debugger stepping (`Debugger`, debugger.py lines 74-173) -/

/-- The debugger fields driving the paused main loop: `active`, `paused` and
`_step_requested` (debugger.py lines 77-79). -/
structure DebuggerState where
  active : Bool
  paused : Bool
  step_requested : Bool
deriving DecidableEq, Repr

/-- `Debugger.step_one` (debugger.py lines 163-166): request a single CPU
step; only honoured while paused. -/
def step_one (d : DebuggerState) : DebuggerState :=
  if d.paused then { d with step_requested := true } else d

/-- `Debugger.consume_step` (debugger.py lines 168-173): consume a pending
step request, returning whether a step should execute together with the
updated debugger state. -/
def consume_step (d : DebuggerState) : Bool × DebuggerState :=
  if d.step_requested then (true, { d with step_requested := false })
  else (false, d)

/-- One iteration of the stepping logic of the main loop body
(atari2600.py lines 131-136): if not paused, one CPU step runs; otherwise a
step runs only when `consume_step` returns true.  Returns the number of CPU
steps executed this iteration and the updated debugger state. -/
def loop_iteration_steps (d : DebuggerState) : Nat × DebuggerState :=
  if !d.paused then (1, d)
  else
    match consume_step d with
    | (true, d') => (1, d')
    | (false, d') => (0, d')

/-! ## NUSIZ decoding (`Debugger._decode_nusiz`, debugger.py lines 923-934) -/

/-- `Debugger._decode_nusiz`: decode the low three bits of a NUSIZ register
value to a `(number, size, gap)` triple. -/
def decode_nusiz (nusiz : Nat) : Nat × Nat × Nat :=
  match nusiz % 8 with
  | 0 => (1, 1, 0)
  | 1 => (2, 1, 2)
  | 2 => (2, 1, 4)
  | 3 => (3, 1, 2)
  | 4 => (2, 1, 8)
  | 5 => (1, 2, 0)
  | 6 => (3, 1, 4)
  | _ => (1, 4, 0)

/-- The NUSIZ table as the spec words it (§4.5 "NUSIZ decoding"):
`0→(1,1,-) 1→(2,1,8) 2→(2,1,24) 3→(3,1,8) 4→(2,1,56) 5→(1,2,-) 6→(3,1,24)
7→(1,4,-)`, gap in visible pixels ("-" rendered as 0). -/
def spec_nusiz_table (v : Nat) : Nat × Nat × Nat :=
  match v % 8 with
  | 0 => (1, 1, 0)
  | 1 => (2, 1, 8)
  | 2 => (2, 1, 24)
  | 3 => (3, 1, 8)
  | 4 => (2, 1, 56)
  | 5 => (1, 2, 0)
  | 6 => (3, 1, 24)
  | _ => (1, 4, 0)

/-! ## Helper lemmas -/

/-- Restoring the record captured from `s` into any machine `t` succeeds and
installs exactly `s` (shared by the save-state claims). -/
theorem set_get_roundtrip (t s : AtariState) :
    set_save_state t (get_save_state s) = Except.ok s := rfl

/-- Folding the scheduler's clock advance over a cost list adds three master
clocks per CPU cycle. -/
theorem foldl_scheduler_advance (costs : List Nat) (c : Nat) :
    costs.foldl scheduler_advance c = c + 3 * costs.sum := by
  induction costs generalizing c with
  | nil => simp
  | cons x xs ih =>
    simp only [List.foldl_cons, List.sum_cons, scheduler_advance, ih]
    ring

/-! ## Claim C1 -/

/-- Claim C1, counterexample: the alias pairs do not all select the same
configuration.  With 12 KB ROMs, `fa` and `cbs` both install 3 banks but
`fa` (which falls to the default branch) gets hotspot base `$FF9` and no
embedded RAM while `cbs` gets hotspot base `$FFA` and 256 B of RAM; with
16 KB ROMs, `f6` lacks `super`'s 128 B RAM. -/
theorem insert_cartridge_alias_pairs_differ :
    (insert_cartridge 12288 "fa").bankCount = 3 ∧
    insert_cartridge 12288 "fa" ≠ insert_cartridge 12288 "cbs" ∧
    insert_cartridge 16384 "f6" ≠ insert_cartridge 16384 "super" := by
  decide

/-- Claim C1, amended: with a ROM of each variant's table size,
`insert_cartridge` installs the table's bank count (`single_bank` 1;
`default`/`f8` 2; `super`/`f6` 4; `f4` 8; `cbs`/`fa` 3; `e` 2; `fe` 2), and
all alias names are accepted; `default` and `f8` select the same
configuration, but `f6` selects `super`'s hotspots without its 128-byte RAM
and `fa` selects hotspot base `$FF9` (not `$FFA`) without `cbs`'s 256-byte
RAM. -/
theorem insert_cartridge_bank_table :
    (insert_cartridge 4096 "single_bank").bankCount = 1 ∧
    (insert_cartridge 8192 "default").bankCount = 2 ∧
    (insert_cartridge 8192 "f8").bankCount = 2 ∧
    insert_cartridge 8192 "f8" = insert_cartridge 8192 "default" ∧
    (insert_cartridge 16384 "super").bankCount = 4 ∧
    (insert_cartridge 16384 "f6").bankCount = 4 ∧
    insert_cartridge 16384 "super" = Cartridge.generic 4 0x1000 0xFF9 0x080 ∧
    insert_cartridge 16384 "f6" = Cartridge.generic 4 0x1000 0xFF9 0 ∧
    (insert_cartridge 32768 "f4").bankCount = 8 ∧
    (insert_cartridge 12288 "cbs").bankCount = 3 ∧
    (insert_cartridge 12288 "fa").bankCount = 3 ∧
    insert_cartridge 12288 "cbs" = Cartridge.generic 3 0x1000 0xFFA 0x100 ∧
    insert_cartridge 12288 "fa" = Cartridge.generic 3 0x1000 0xFF9 0 ∧
    (insert_cartridge 8192 "e").bankCount = 2 ∧
    (insert_cartridge 8192 "fe").bankCount = 2 := by
  decide

/-! ## Claim C2 -/

/-- Claim C2, counterexample: a tag outside the supported set does not fail
with `UnknownCartridgeType` — `insert_cartridge` has no failure path and
installs the fallback `GenericCartridge` for the unknown tag `"zzz"`. -/
theorem insert_cartridge_unknown_tag_installs :
    insert_cartridge 8192 "zzz" = Cartridge.generic 2 0x1000 0xFF9 0 := by
  decide

/-- Claim C2, amended: every tag outside the nine dispatched tags (including
the alias names `f8`, `f6`, `fa`) is accepted and silently installs the
fallback configuration `GenericCartridge(max 4 banks, 4 KB, hotspot base
`$FF9`, no RAM)`; no `UnknownCartridgeType` error exists. -/
theorem insert_cartridge_unknown_tag (romSize : Nat) (tag : String)
    (h : tag ∉ ["pb", "mnet", "fe", "e", "cbs", "super", "f4", "single_bank", "default"]) :
    insert_cartridge romSize tag = GenericCartridge romSize 4 0x1000 0xFF9 0 := by
  simp only [List.mem_cons, List.not_mem_nil, or_false, not_or] at h
  obtain ⟨h1, h2, h3, h4, h5, h6, h7, h8, h9⟩ := h
  simp [insert_cartridge, h1, h2, h3, h4, h5, h6, h7, h8, h9]

/-- Claim C2, witness for the amended theorem at the unknown tag `"zzz"`. -/
theorem insert_cartridge_unknown_tag_witness :
    insert_cartridge 8192 "zzz" = GenericCartridge 8192 4 0x1000 0xFF9 0 :=
  insert_cartridge_unknown_tag 8192 "zzz" (by decide)

/-! ## Claim C3 -/

/-- Claim C3, counterexample: the tag `"fe"` installs a `GenericCartridge`
whose hotspot decoding is address-only (it never samples the data bus),
while the tag `"e"` — one of the "other listed variants" — installs the
`FECartridge`, whose bank switching depends on the sampled data-bus value
(bus `$00` and bus `$20` at address `$01FE` select different banks). -/
theorem fe_tag_address_only_e_tag_not :
    (insert_cartridge 8192 "fe").addressOnly ∧
    ¬ (insert_cartridge 8192 "e").addressOnly := by
  have hfe : insert_cartridge 8192 "fe" = Cartridge.generic 2 0x1000 0xFFB 0x080 := by
    decide
  have he : insert_cartridge 8192 "e" = Cartridge.feCart 2 0x1000 := by decide
  constructor
  · rw [hfe]
    intro addr bus bus'
    rfl
  · rw [he]
    intro h
    exact absurd (h 0x1FE 0 0x20) (by decide)

/-- Claim C3, amended: the data-bus-sampled FE scheme is wired to the tag
`"e"` (class `FECartridge`), not to `"fe"`; every cartridge installed for a
tag other than `"e"` — including `"fe"`, which gets an address-only
`GenericCartridge` — has address-only hotspot decoding. -/
theorem bank_switch_address_only_except_tag_e :
    (¬ (insert_cartridge 8192 "e").addressOnly) ∧
    ∀ (romSize : Nat) (tag : String), tag ≠ "e" →
      (insert_cartridge romSize tag).addressOnly := by
  constructor
  · have he : insert_cartridge 8192 "e" = Cartridge.feCart 2 0x1000 := by decide
    rw [he]
    intro h
    exact absurd (h 0x1FE 0 0x20) (by decide)
  · intro romSize tag htag
    unfold insert_cartridge
    split_ifs with h1 h2 h3 h4 h5 h6 h7 h8 <;> intro addr bus bus' <;> rfl

/-- Claim C3, witness for the amended theorem: the `super` cartridge's
bank-switch effect at the hotspot `$1FF9` is the same for two different
data-bus values. -/
theorem bank_switch_address_only_witness :
    (insert_cartridge 16384 "super").bankSwitch 0x1FF9 0
      = (insert_cartridge 16384 "super").bankSwitch 0x1FF9 77 :=
  bank_switch_address_only_except_tag_e.2 16384 "super" (by decide) 0x1FF9 0 77

/-! ## Claim C4 -/

/-- Claim C4, counterexample: with the nonzero clock cap `stop_clock = 9`,
`system_clock = 0` and the quit predicate already true (`quit = 1`), the
spec's exit condition holds but the main loop's guard is still true — the
loop body runs again, so a true quit predicate does not terminate the loop
when a nonzero `stop_clock` is given. -/
theorem power_on_guard_ignores_quit_under_cap :
    power_on_guard 9 0 1 = true ∧ spec_exit_condition 9 0 1 = true := by
  decide

/-- Claim C4, amended: the main loop exits exactly when the quit predicate
is true, if `stop_clock = 0`; and exactly when `system_clock` has reached
`stop_clock`, if `stop_clock` is nonzero — in the latter case the quit
predicate is not consulted at all. -/
theorem power_on_guard_exit_iff (stop_clock system_clock quit : Nat) :
    power_on_guard stop_clock system_clock quit = false ↔
      ((stop_clock = 0 ∧ quit ≠ 0) ∨ (stop_clock ≠ 0 ∧ stop_clock ≤ system_clock)) := by
  unfold power_on_guard
  by_cases h : stop_clock = 0 <;> simp [h]

/-! ## Claim C5 -/

/-- Claim C5, counterexample: restoring a record that holds `clocks` and
`memory` but no `core` key fails, yet leaves `clocks` and `memory` already
overwritten — the core state is not left as it was before the call. -/
theorem set_save_state_partial_mutation :
    set_save_state ⟨0, 0, 0, 0, 0, 0⟩ [("clocks", 1), ("memory", 2)]
      = Except.error ⟨1, 2, 0, 0, 0, 0⟩ ∧
    (⟨1, 2, 0, 0, 0, 0⟩ : AtariState) ≠ ⟨0, 0, 0, 0, 0, 0⟩ :=
  ⟨rfl, by decide⟩

/-- Claim C5, amended: a failed restore is not rolled back — the components
whose keys precede the missing key (in the fixed order `clocks`, `memory`,
`core`, `inputs`, `stella`, `riot`) keep their newly restored values and
only the later components keep their pre-call values.  Stated for a record
whose first missing key is `core`. -/
theorem set_save_state_no_rollback (s : AtariState) (st : SaveState) (a b : Nat)
    (h1 : List.lookup "clocks" st = some a)
    (h2 : List.lookup "memory" st = some b)
    (h3 : List.lookup "core" st = none) :
    set_save_state s st = Except.error { s with clocks := a, memory := b } := by
  simp only [set_save_state, h1, h2, h3]

/-- Claim C5, witness for the amended theorem at a concrete machine state
and record. -/
theorem set_save_state_no_rollback_witness :
    set_save_state ⟨9, 9, 9, 9, 9, 9⟩ [("clocks", 3), ("memory", 4)]
      = Except.error ⟨3, 4, 9, 9, 9, 9⟩ :=
  set_save_state_no_rollback ⟨9, 9, 9, 9, 9, 9⟩ [("clocks", 3), ("memory", 4)] 3 4
    (by decide) (by decide) (by decide)

/-! ## Claim C6 -/

/-- Claim C6: capturing a save-state and immediately restoring it succeeds
and reproduces the captured machine state exactly, so any deterministic
continuation — in particular the next 1,000,000 master clocks of execution,
modelled by iterating an arbitrary step function — behaves identically to
the uninterrupted machine. -/
theorem save_restore_roundtrip (s : AtariState) (step : AtariState → AtariState) :
    set_save_state s (get_save_state s) = Except.ok s ∧
    Except.map (fun t => step^[1000000] t) (set_save_state s (get_save_state s))
      = Except.ok (step^[1000000] s) := by
  rw [set_get_roundtrip]
  exact ⟨rfl, rfl⟩

/-! ## Claim C7 -/

/-- Claim C7, counterexample: for NUSIZ value 1 the decoder returns gap 2,
not the claimed gap of 8 visible pixels. -/
theorem decode_nusiz_gap_not_pixels :
    decode_nusiz 1 = (2, 1, 2) ∧ decode_nusiz 1 ≠ spec_nusiz_table 1 := by
  decide

/-- Claim C7, amended: for every 3-bit NUSIZ value the decoder's copy count
and size agree with the table, but the returned gap is not measured in
visible pixels: for multi-copy values the table's pixel gap equals
`8 * gap - 8` for the decoder's gap (so the decoder returns 2, 4, 2, 8, 4
where the table has 8, 24, 8, 56, 24), and single-copy values return gap
0. -/
theorem decode_nusiz_matches_table_except_gap (v : Fin 8) :
    (decode_nusiz v.val).1 = (spec_nusiz_table v.val).1 ∧
    (decode_nusiz v.val).2.1 = (spec_nusiz_table v.val).2.1 ∧
    (spec_nusiz_table v.val).2.2 =
      (if (decode_nusiz v.val).1 = 1 then 0 else 8 * (decode_nusiz v.val).2.2 - 8) := by
  revert v
  decide

/-! ## Claim C8 -/

/-- Claim C8: starting from power-on, after any number of instructions of
any cycle costs — i.e. at every instruction boundary — the master clock is
divisible by 3, and the accumulated CPU cycle count (the sum of the
instruction costs so far) equals `system_clock / 3`. -/
theorem instruction_boundary_clock_invariant (costs : List Nat) (n : Nat) :
    run_clock (costs.take n) % 3 = 0 ∧
    run_clock (costs.take n) / 3 = (costs.take n).sum := by
  unfold run_clock
  rw [foldl_scheduler_advance]
  omega

/-! ## Claim C9 -/

/-- Claim C9: `step_one` is a no-op when the debugger is not paused;
`consume_step` returns `false` when no request is pending; a pending request
is consumed with the flag cleared before `true` is returned; and in the
paused branch of the main loop one `step_one` request yields exactly one CPU
step on the next iteration and none on the iteration after it. -/
theorem debugger_step_request_once (a p r : Bool) :
    step_one ⟨a, false, r⟩ = ⟨a, false, r⟩ ∧
    consume_step ⟨a, p, false⟩ = (false, ⟨a, p, false⟩) ∧
    consume_step ⟨a, p, true⟩ = (true, ⟨a, p, false⟩) ∧
    loop_iteration_steps (step_one ⟨a, true, false⟩) = (1, ⟨a, true, false⟩) ∧
    loop_iteration_steps (loop_iteration_steps (step_one ⟨a, true, false⟩)).2
      = (0, ⟨a, true, false⟩) := by
  revert a p r
  decide

/-! ## Claim C10 -/

/-- Claim C10: `get_save_state` returns a record whose keys are exactly
`clocks`, `memory`, `core`, `inputs`, `stella`, `riot` in that order, and
`set_save_state` reads exactly these six keys, routing each value to the
component of the same name — so every record produced by `get_save_state`
is accepted by `set_save_state` without a missing-key failure, restoring
the captured state. -/
theorem save_state_keys_accepted (s t : AtariState) :
    (get_save_state s).map Prod.fst
      = ["clocks", "memory", "core", "inputs", "stella", "riot"] ∧
    set_save_state t (get_save_state s) = Except.ok s :=
  ⟨rfl, set_get_roundtrip t s⟩
